import Mathlib

/-!
Shallow embedding of the `ress` chess rules engine
(`src/coordinate.rs`, `src/piece.rs`, `src/grid.rs`, `src/lib.rs`).

Machine integers (`i8`, `u8`) are modelled as `Int`/`Nat` with explicit
two's-complement wrapping where overflow matters.  Fallible / panicking
code returns `Option`.  Names follow the Rust source where Lean allows.
-/

set_option maxRecDepth 4000
set_option maxHeartbeats 2000000

namespace Ress

/-! ## piece.rs -/

inductive PieceKind where
  | Pawn | Knight | Bishop | Rook | Queen | King
  deriving DecidableEq, Repr

inductive Color where
  | Black | White
  deriving DecidableEq, Repr

/-- `i8` two's-complement wrap, used wherever the Rust source performs `i8`
addition that could overflow (release-mode wrapping semantics). -/
def i8wrap (x : Int) : Int := (x + 128) % 256 - 128

/-! ## coordinate.rs : Rank, File -/

inductive Rank where
  | First | Second | Third | Fourth | Fifth | Sixth | Seventh | Eighth
  deriving DecidableEq, Repr

def Rank.toI8 : Rank → Int
  | .First => 0 | .Second => 1 | .Third => 2 | .Fourth => 3
  | .Fifth => 4 | .Sixth => 5 | .Seventh => 6 | .Eighth => 7

def Rank.toNat (r : Rank) : Nat := r.toI8.toNat

/-- `impl TryFrom<i8> for Rank` -/
def Rank.tryFrom (value : Int) : Option Rank :=
  if value = 0 then some .First
  else if value = 1 then some .Second
  else if value = 2 then some .Third
  else if value = 3 then some .Fourth
  else if value = 4 then some .Fifth
  else if value = 5 then some .Sixth
  else if value = 6 then some .Seventh
  else if value = 7 then some .Eighth
  else none

/-- `impl Add<i8> for Rank` : `Self::try_from(self as i8 + rhs).ok()`. -/
def Rank.add (self : Rank) (rhs : Int) : Option Rank :=
  Rank.tryFrom (i8wrap (self.toI8 + rhs))

inductive File where
  | A | B | C | D | E | F | G | H
  deriving DecidableEq, Repr

def File.toI8 : File → Int
  | .A => 0 | .B => 1 | .C => 2 | .D => 3
  | .E => 4 | .F => 5 | .G => 6 | .H => 7

def File.toNat (f : File) : Nat := f.toI8.toNat

/-- `impl TryFrom<i8> for File` -/
def File.tryFrom (value : Int) : Option File :=
  if value = 0 then some .A
  else if value = 1 then some .B
  else if value = 2 then some .C
  else if value = 3 then some .D
  else if value = 4 then some .E
  else if value = 5 then some .F
  else if value = 6 then some .G
  else if value = 7 then some .H
  else none

/-- `impl Add<i8> for File` -/
def File.add (self : File) (rhs : Int) : Option File :=
  File.tryFrom (i8wrap (self.toI8 + rhs))

/-! ## coordinate.rs : Coordinate, Offset, Side, Move -/

structure Coordinate where
  file : File
  rank : Rank
  deriving DecidableEq, Repr

structure Offset where
  vertical : Int
  horizontal : Int
  deriving DecidableEq, Repr

/-- `impl From<(i8, i8)> for Offset`: `horizontal: of.0, vertical: of.1`. -/
def Offset.ofPair (of : Int × Int) : Offset :=
  { horizontal := of.1, vertical := of.2 }

def Coordinate.checked_add_offset (self : Coordinate) (offset : Offset) :
    Option Coordinate := do
  let file ← self.file.add offset.horizontal
  let rank ← self.rank.add offset.vertical
  pure { file, rank }

/-- `Coordinate::next` (ascending traversal step). -/
def Coordinate.next (self : Coordinate) : Option Coordinate :=
  match self.file.add 1 with
  | some file => some { self with file }
  | none => (self.rank.add 1).map fun rank => { file := .A, rank }

/-- `Coordinate::back_next` (descending traversal step: same file walk,
rank decreasing). -/
def Coordinate.back_next (self : Coordinate) : Option Coordinate :=
  match self.file.add 1 with
  | some file => some { self with file }
  | none => (self.rank.add (-1)).map fun rank => { file := .A, rank }

def Rank.all : List Rank :=
  [.First, .Second, .Third, .Fourth, .Fifth, .Sixth, .Seventh, .Eighth]

def File.all : List File :=
  [.A, .B, .C, .D, .E, .F, .G, .H]

/-- The forward full-board iteration `Coordinate::iter()`:
A1, B1, …, H1, A2, …, H8. -/
def Coordinate.allAsc : List Coordinate :=
  Rank.all.flatMap fun r => File.all.map fun f => ⟨f, r⟩

/-- The backward full-board iteration `Coordinate::iter().rev()` (via
`back_next`): A8, B8, …, H8, A7, …, H1. -/
def Coordinate.allDesc : List Coordinate :=
  Rank.all.reverse.flatMap fun r => File.all.map fun f => ⟨f, r⟩

inductive Side where
  | King | Queen
  deriving DecidableEq, Repr

def Side.king_safespot_file : Side → File
  | .King => .G
  | .Queen => .C

def Side.rook_home_file : Side → File
  | .King => .H
  | .Queen => .A

def Side.rook_castled_file : Side → File
  | .King => .F
  | .Queen => .D

inductive Move where
  | Simple (fromSq toSq : Coordinate)
  | Promotion (fromFile toFile : File) (piece : PieceKind)
  | EnPassant (fromFile toFile : File)
  | Castling (side : Side)
  deriving DecidableEq, Repr

/-! ## piece.rs : Color helpers, Piece -/

def Color.the_other : Color → Color
  | .Black => .White
  | .White => .Black

def Color.direction : Color → Int
  | .White => 1
  | .Black => -1

def Color.home_rank : Color → Rank
  | .White => .First
  | .Black => .Eighth

def Color.pawn_rank : Color → Rank
  | .White => .Second
  | .Black => .Seventh

def Color.prepromotion_rank : Color → Rank
  | .White => .Seventh
  | .Black => .Second

def Color.promotion_rank : Color → Rank
  | .White => .Eighth
  | .Black => .First

def Color.en_passant_rank : Color → Rank
  | .White => .Fifth
  | .Black => .Fourth

def Color.unpassable_rank : Color → Rank
  | .White => .Sixth
  | .Black => .Third

structure Piece where
  kind : PieceKind
  color : Color
  deriving DecidableEq, Repr

/-- `Piece::parse` (one-character board-layout token). -/
def Piece.parse (raw : Char) : Option Piece :=
  match raw with
  | 'P' => some { kind := .Pawn, color := .White }
  | 'N' => some { kind := .Knight, color := .White }
  | 'B' => some { kind := .Bishop, color := .White }
  | 'R' => some { kind := .Rook, color := .White }
  | 'Q' => some { kind := .Queen, color := .White }
  | 'K' => some { kind := .King, color := .White }
  | 'p' => some { kind := .Pawn, color := .Black }
  | 'n' => some { kind := .Knight, color := .Black }
  | 'b' => some { kind := .Bishop, color := .Black }
  | 'r' => some { kind := .Rook, color := .Black }
  | 'q' => some { kind := .Queen, color := .Black }
  | 'k' => some { kind := .King, color := .Black }
  | _ => none

/-! ## coordinate.rs : Move resolution -/

def Move.resolve_from (self : Move) (color : Color) : Coordinate :=
  match self with
  | .Simple fromSq _ => fromSq
  | .Promotion fromFile _ _ => { file := fromFile, rank := color.prepromotion_rank }
  | .EnPassant fromFile _ => { file := fromFile, rank := color.en_passant_rank }
  | .Castling _ => { file := .E, rank := color.home_rank }

def Move.resolve_to (self : Move) (color : Color) : Coordinate :=
  match self with
  | .Simple _ toSq => toSq
  | .Promotion _ toFile _ => { file := toFile, rank := color.promotion_rank }
  | .EnPassant _ toFile => { file := toFile, rank := color.unpassable_rank }
  | .Castling side => { file := side.king_safespot_file, rank := color.home_rank }

/-! ## grid.rs -/

/-- `Grid(pub [[Option<Piece>; 8]; 8])`, indexed `[rank][file]`. -/
structure Grid where
  cells : List (List (Option Piece))
  deriving DecidableEq, Repr

def Grid.get (self : Grid) (index : Coordinate) : Option Piece :=
  (self.cells.getD index.rank.toNat []).getD index.file.toNat none

def Grid.set (self : Grid) (index : Coordinate) (v : Option Piece) : Grid :=
  ⟨self.cells.set index.rank.toNat
    ((self.cells.getD index.rank.toNat []).set index.file.toNat v)⟩

/-- `Grid::default()` : all cells empty. -/
def Grid.default : Grid :=
  ⟨List.replicate 8 (List.replicate 8 (none : Option Piece))⟩

/-- `Grid::move(&mut self, move, color) -> bool`.  Returns the mutated grid
together with the "advancing" flag the Rust method returns.  Assignment
order mirrors the Rust `take()`/index writes. -/
def Grid.move (self : Grid) (m : Move) (color : Color) : Grid × Bool :=
  match m with
  | .Simple fromSq toSq =>
    let advancing_move :=
      (match self.get fromSq with
       | some { kind := .Pawn, .. } => true
       | _ => false) || (self.get toSq).isSome
    let v := self.get fromSq
    let g := (self.set fromSq none).set toSq v
    (g, advancing_move)
  | .Promotion _ _ piece =>
    let g := (self.set (m.resolve_to color) (some { color, kind := piece })).set
      (m.resolve_from color) none
    (g, true)
  | .EnPassant _ toFile =>
    let v := self.get (m.resolve_from color)
    let g := (self.set (m.resolve_from color) none).set (m.resolve_to color) v
    let g := g.set { file := toFile, rank := color.en_passant_rank } none
    (g, true)
  | .Castling side =>
    let v := self.get (m.resolve_from color)
    let g := (self.set (m.resolve_from color) none).set (m.resolve_to color) v
    let rank := color.home_rank
    let v2 := g.get { file := side.rook_home_file, rank }
    let g := (g.set { file := side.rook_home_file, rank } none).set
      { file := side.rook_castled_file, rank } v2
    (g, false)

/-- `Grid::iter_coord()` flattened to the list of `(piece, coord)` pairs in
ascending order. -/
def Grid.iter_coord (self : Grid) : List (Option Piece × Coordinate) :=
  Coordinate.allAsc.map fun c => (self.get c, c)

/-! ## lib.rs : outcome / error types -/

inductive WinReason where
  | Checkmate | Resignation
  deriving DecidableEq, Repr

inductive DrawReason where
  | Agreement | Stalemate | ThreefoldRepetition | FivefoldRepetition
  | NoAdvancement | InsufficientMaterial
  deriving DecidableEq, Repr

inductive GameOutcome where
  | Decisive (won : Color) (reason : WinReason)
  | Draw (reason : DrawReason)
  deriving DecidableEq, Repr

inductive MoveError where
  | GameHasOutcome (outcome : GameOutcome)
  | IllegalMove
  | AmbiguousMove
  | DrawPending
  deriving DecidableEq, Repr

/-! ## lib.rs : Board -/

structure Board where
  grid_history : List Grid
  last_move : Option Move
  /-- `u8` stale-ply counter. -/
  stale_plies : Nat
  white_castle : Bool × Bool
  black_castle : Bool × Bool
  move_color : Color
  game_outcome : Option GameOutcome
  draw_pending : Option (Bool × Color)
  deriving DecidableEq, Repr

/-- `Board::grid()` : last element of `grid_history` (the source accesses it
unchecked; the history is never empty for boards built through the API). -/
def Board.grid (self : Board) : Grid :=
  self.grid_history.getLastD Grid.default

/-! ## lib.rs : attack detection -/

def knightOffsets : List (Int × Int) :=
  [(2, 1), (2, -1), (-2, 1), (-2, -1), (1, 2), (-1, 2), (1, -2), (-1, -2)]

def rookDirs : List (Int × Int) := [(0, 1), (0, -1), (1, 0), (-1, 0)]

def bishopDirs : List (Int × Int) := [(1, 1), (1, -1), (-1, 1), (-1, -1)]

def queenDirs : List (Int × Int) :=
  [(0, 1), (0, -1), (1, 0), (-1, 0), (1, 1), (1, -1), (-1, 1), (-1, -1)]

/-- First piece encountered walking from `c` in direction `of` (the
`while grid[check_coord].is_none()` loops); fuel-based, 8 ≥ any ray length. -/
def rayFirstPieceGo (g : Grid) (of : Offset) : Nat → Coordinate → Option Piece
  | 0, _ => none
  | n + 1, c =>
    match c.checked_add_offset of with
    | none => none
    | some c' =>
      match g.get c' with
      | some p => some p
      | none => rayFirstPieceGo g of n c'

def rayFirstPiece (g : Grid) (c : Coordinate) (of : Offset) : Option Piece :=
  rayFirstPieceGo g of 8 c

/-- The attack scan at the heart of `Board::is_under_attack`, on a given
grid: pawn diagonals, knight offsets, rook/queen rays, bishop/queen rays,
king-adjacent squares. -/
def Grid.attacked (g : Grid) (by_color : Color) (coord : Coordinate) : Bool :=
  let pawnHit := ([-1, 1] : List Int).any fun file_of =>
    match coord.checked_add_offset { vertical := -by_color.direction, horizontal := file_of } with
    | some c =>
      match g.get c with
      | some { kind := .Pawn, color } => color = by_color
      | _ => false
    | none => false
  let knightHit := knightOffsets.any fun of =>
    match coord.checked_add_offset (Offset.ofPair of) with
    | some c =>
      match g.get c with
      | some { kind := .Knight, color } => color = by_color
      | _ => false
    | none => false
  let rookHit := rookDirs.any fun of =>
    match rayFirstPiece g coord (Offset.ofPair of) with
    | some p => (p.kind = .Rook || p.kind = .Queen) && p.color = by_color
    | none => false
  let bishopHit := bishopDirs.any fun of =>
    match rayFirstPiece g coord (Offset.ofPair of) with
    | some p => (p.kind = .Bishop || p.kind = .Queen) && p.color = by_color
    | none => false
  let kingHit := queenDirs.any fun of =>
    match coord.checked_add_offset (Offset.ofPair of) with
    | some c =>
      match g.get c with
      | some { kind := .King, color } => color = by_color
      | _ => false
    | none => false
  pawnHit || knightHit || rookHit || bishopHit || kingHit

/-- `Board::is_under_attack(by, coord, after)` : clones the grid, optionally
applies a simulated move (re-anchoring `coord` onto the mover's destination
when `adapt` is set and the simulated move started on `coord`), then scans. -/
def Board.is_under_attack (self : Board) (by_color : Color) (coord : Coordinate)
    (after : Option (Color × Move × Bool)) : Bool :=
  match after with
  | some (color, m, adapt) =>
    let grid := (self.grid.move m color).1
    let coord' := if adapt && decide (m.resolve_from color = coord)
      then m.resolve_to color else coord
    grid.attacked by_color coord'
  | none => self.grid.attacked by_color coord

/-! ## lib.rs : pseudo-legal move generation -/

/-- Sliding-piece ray of candidate moves in direction `of` (the
`while grid[check_coord].is_none()` push loops); fuel-based. -/
def rayMovesGo (g : Grid) (for_color : Color) (start : Coordinate) (of : Offset) :
    Nat → Coordinate → List Move
  | 0, _ => []
  | n + 1, c =>
    match c.checked_add_offset of with
    | none => []
    | some check_coord =>
      match g.get check_coord with
      | none => .Simple start check_coord :: rayMovesGo g for_color start of n check_coord
      | some p => if p.color = for_color.the_other then [.Simple start check_coord] else []

def rayMoves (g : Grid) (for_color : Color) (start : Coordinate) (of : Offset) :
    List Move :=
  rayMovesGo g for_color start of 8 start

def promotionKinds : List PieceKind := [.Queen, .Rook, .Bishop, .Knight]

/-- The per-piece body of `unchecked_for_check_possible_moves`'s big match. -/
def Board.movesForPiece (self : Board) (for_color : Color) (piece : PieceKind)
    (coord : Coordinate) : List Move :=
  match piece with
  | .Pawn =>
    -- first move (two-square advance from the pawn rank)
    let firstMove :=
      if coord.rank = for_color.pawn_rank then
        match coord.checked_add_offset { vertical := for_color.direction, horizontal := 0 },
              coord.checked_add_offset { vertical := for_color.direction * 2, horizontal := 0 } with
        | some path, some toC =>
          if (self.grid.get toC).isNone && (self.grid.get path).isNone
          then [.Simple coord toC] else []
        | _, _ => []
      else []
    -- move forward
    let forward :=
      match coord.checked_add_offset { vertical := for_color.direction, horizontal := 0 } with
      | none => []
      | some toC =>
        if (self.grid.get toC).isNone then
          if toC.rank ≠ for_color.promotion_rank then [.Simple coord toC]
          else promotionKinds.map fun piece_kind => .Promotion coord.file toC.file piece_kind
        else []
    -- move diagonally
    let diag := ([1, -1] : List Int).flatMap fun of =>
      match coord.checked_add_offset { vertical := for_color.direction, horizontal := of } with
      | none => []
      | some toC =>
        match self.grid.get toC with
        | some p =>
          if p.color = for_color.the_other then
            if toC.rank ≠ for_color.promotion_rank then [.Simple coord toC]
            else promotionKinds.map fun piece_kind => .Promotion coord.file toC.file piece_kind
          else []
        | none => []
    -- en passant, keyed on `last_move`
    let ep :=
      if coord.rank = for_color.en_passant_rank then
        match self.last_move with
        | some (.Simple lfrom lto) =>
          let prevGrid := self.grid_history.getD (self.grid_history.length - 2) Grid.default
          if (match prevGrid.get lfrom with
              | some p => p.kind = PieceKind.Pawn
              | none => false) &&
             decide (lto.rank = for_color.en_passant_rank) &&
             decide ((coord.file.toI8 - lto.file.toI8).natAbs = 1)
          then [.EnPassant lfrom.file lto.file] else []
        | _ => []
      else []
    firstMove ++ forward ++ diag ++ ep
  | .Knight =>
    knightOffsets.flatMap fun of =>
      match coord.checked_add_offset (Offset.ofPair of) with
      | none => []
      | some toC =>
        let square := self.grid.get toC
        if square.isNone ||
           (match square with | some p => decide (p.color = for_color.the_other) | none => false)
        then [.Simple coord toC] else []
  | .Bishop =>
    bishopDirs.flatMap fun of => rayMoves self.grid for_color coord (Offset.ofPair of)
  | .Rook =>
    rookDirs.flatMap fun of => rayMoves self.grid for_color coord (Offset.ofPair of)
  | .Queen =>
    queenDirs.flatMap fun of => rayMoves self.grid for_color coord (Offset.ofPair of)
  | .King =>
    let adjacent := queenDirs.flatMap fun of =>
      match coord.checked_add_offset (Offset.ofPair of) with
      | none => []
      | some check_coord =>
        let piece := self.grid.get check_coord
        if piece.isNone ||
           (match piece with | some p => decide (p.color = for_color.the_other) | none => false)
        then [.Simple coord check_coord] else []
    let castle_perm := match for_color with
      | .White => self.white_castle
      | .Black => self.black_castle
    -- Rust tuple field `.0` is Lean `.1` (first component), `.1` is `.2`.
    let kingside :=
      if castle_perm.1 &&
         !(self.is_under_attack for_color.the_other ⟨.F, for_color.home_rank⟩ none) &&
         ([File.F, File.G].all fun file =>
           (self.grid.get ⟨file, for_color.home_rank⟩).isNone)
      then [.Castling .King] else []
    let queenside :=
      if castle_perm.2 &&
         !(self.is_under_attack for_color.the_other ⟨.D, for_color.home_rank⟩ none) &&
         ([File.D, File.C, File.B].all fun file =>
           (self.grid.get ⟨file, for_color.home_rank⟩).isNone)
      then [.Castling .Queen] else []
    adjacent ++ kingside ++ queenside

def Board.unchecked_for_check_possible_moves (self : Board) (for_color : Color) :
    List Move :=
  ((self.grid.iter_coord.filterMap fun pc =>
      pc.1.map fun piece => (piece, pc.2)).filterMap fun pc =>
      if pc.1.color = for_color then some (pc.1.kind, pc.2) else none).flatMap
    fun pc => self.movesForPiece for_color pc.1 pc.2

def Board.find_piece (self : Board) (piece : Piece) : Option Coordinate :=
  ((self.grid.iter_coord.filterMap fun pc =>
      pc.1.map fun p => (p, pc.2)).find? fun cpiece =>
      decide (cpiece.1 = piece)).map fun pc => pc.2

/-- `Board::possible_moves` : legal moves (pseudo-legal filtered by own-king
safety).  `none` models the fatal missing-king panic. -/
def Board.possible_moves (self : Board) (color : Color) : Option (List Move) :=
  (self.find_piece { kind := .King, color }).map fun king_coord =>
    (self.unchecked_for_check_possible_moves color).filter fun m =>
      !(self.is_under_attack color.the_other king_coord (some (color, m, true)))

/-! ## lib.rs : material, castling rights, play_move -/

def materialLoop : List Piece → Bool → Bool → Bool → Bool → Bool
  | [], wb, bb, wn, bn => (wn && wb) || (bn && bb)
  | p :: rest, wb, bb, wn, bn =>
    match p with
    | { kind := .Bishop, color := .White } => materialLoop rest true bb wn bn
    | { kind := .Bishop, color := .Black } => materialLoop rest wb true wn bn
    | { kind := .Knight, color := .White } => materialLoop rest wb bb true bn
    | { kind := .Knight, color := .Black } => materialLoop rest wb bb wn true
    | _ => true

def Board.is_material_sufficient_for_checkmate (self : Board) : Bool :=
  materialLoop
    ((self.grid.iter_coord.filterMap Prod.fst).filter fun p =>
      decide (p.kind ≠ PieceKind.King))
    false false false false

def Board.handle_castling_rights_update (self : Board) (color : Color) (m : Move) :
    Board :=
  let castling_rights := match color with
    | .White => self.white_castle
    | .Black => self.black_castle
  let castling_rights :=
    match m with
    | .Castling _ => (false, false)
    | .Simple fromSq _ =>
      if fromSq.file = .E ∧ fromSq.rank = color.home_rank then (false, false)
      else if fromSq.file = .H ∧ fromSq.rank = color.home_rank then
        (false, castling_rights.2)
      else if fromSq.file = .A ∧ fromSq.rank = color.home_rank then
        (castling_rights.1, false)
      else castling_rights
    | _ => castling_rights
  match color with
  | .White => { self with white_castle := castling_rights }
  | .Black => { self with black_castle := castling_rights }

inductive PlayerMove where
  | Internal (m : Move)
  | Long (fromSq toSq : Coordinate) (promotion : Option PieceKind)
  | Short (piece : PieceKind) (toSq : File × Option Rank)
      (fromSq : Option File × Option Rank) (capture : Bool)
      (promotion : Option PieceKind)
  deriving DecidableEq, Repr

/-- The move-resolution step of `play_move`: outer `none` models the
missing-king panic (and the `todo!()` on short form), inner `none` is
"no legal move matched". -/
def Board.selectMove (self : Board) (pm : PlayerMove) : Option (Option Move) :=
  match pm with
  | .Internal m =>
    (self.possible_moves self.move_color).map fun pms =>
      if pms.any fun legal_move => decide (legal_move = m) then some m else none
  | .Long fromSq toSq promotion =>
    (self.possible_moves self.move_color).map fun pms =>
      pms.find? fun legal_move =>
        decide (legal_move.resolve_from self.move_color = fromSq) &&
        decide (legal_move.resolve_to self.move_color = toSq) &&
        (match legal_move with
         | .Promotion _ _ piece =>
           match promotion with
           | some q => decide (piece = q)
           | none => false
         | _ => true)
  | .Short _ _ _ _ _ => none

/-- The mutation block of `play_move` once a legal move was matched: push the
grid snapshot, apply the move, update castling rights and `stale_plies`.
NOTE: the Rust `Internal` branch negates the advancing flag
(`advancing_move = !self.grid_mut().r#move(...)`) while the `Long` branch
does not; this is mirrored on purpose. -/
def Board.applyAccepted (self : Board) (pm : PlayerMove) (m : Move) : Board :=
  let color_to_move := self.move_color
  let applied := self.grid.move m color_to_move
  let advancing_move :=
    match pm with
    | .Internal _ => !applied.2
    | _ => applied.2
  let b := { self with grid_history := self.grid_history ++ [applied.1] }
  let b := b.handle_castling_rights_update color_to_move m
  { b with stale_plies := if !advancing_move then (b.stale_plies + 1) % 256 else 0 }

/-- The repetition-count arm of the outcome recomputation
(`match count { 3 => …, 5 => …, _ => {} }`). -/
def Board.repetitionStep (self : Board) (color_to_move : Color) (count : Nat) : Board :=
  if count = 3 then { self with draw_pending := some (true, color_to_move) }
  else if count = 5 then
    { self with game_outcome := some (.Draw .FivefoldRepetition) }
  else self

/-- The outcome-recomputation block at the end of `play_move` (checkmate /
stalemate, 50-move rule, insufficient material, repetition count). -/
def Board.updateOutcome (self : Board) (color_to_move : Color) : Option Board :=
  match self.possible_moves self.move_color.the_other with
  | none => none
  | some opp =>
    if opp.isEmpty then
      match self.find_piece { kind := .King, color := self.move_color.the_other } with
      | none => none
      | some enemy_king_pos =>
        if self.is_under_attack self.move_color enemy_king_pos none then
          some { self with game_outcome := some (.Decisive self.move_color .Checkmate) }
        else
          some { self with game_outcome := some (.Draw .Stalemate) }
    else if self.stale_plies = 100 then
      some { self with game_outcome := some (.Draw .NoAdvancement) }
    else if !self.is_material_sufficient_for_checkmate then
      some { self with game_outcome := some (.Draw .InsufficientMaterial) }
    else
      some (self.repetitionStep color_to_move
        (self.grid_history.countP fun position => decide (position = self.grid)))

/-- The final step of `play_move`: flip `move_color` unless a terminal
outcome was just set. -/
def Board.finishTurn (self : Board) (color_to_move : Color) : Board :=
  if self.game_outcome.isNone
  then { self with move_color := color_to_move.the_other } else self

/-- `Board::play_move`.  Result `none` models a panic; otherwise the pair of
the (possibly mutated) board and the Rust `Result`. -/
def Board.play_move (self : Board) (pm : PlayerMove) :
    Option (Board × Except MoveError (Option GameOutcome)) :=
  match self.game_outcome with
  | some game_outcome => some (self, .error (.GameHasOutcome game_outcome))
  | none =>
    if self.draw_pending.isSome then some (self, .error .DrawPending)
    else
      match self.selectMove pm with
      | none => none
      | some none => some (self, .error .IllegalMove)
      | some (some m) =>
        ((self.applyAccepted pm m).updateOutcome self.move_color).map fun b =>
          (b.finishTurn self.move_color, .ok (b.finishTurn self.move_color).game_outcome)

def Board.propose_draw (self : Board) (by_color : Color) : Board :=
  match self.draw_pending with
  | some (repetition, color) =>
    if color.the_other = by_color then
      if repetition then
        { self with game_outcome := some (.Draw .ThreefoldRepetition) }
      else
        { self with game_outcome := some (.Draw .Agreement) }
    else { self with draw_pending := some (false, by_color) }
  | none => { self with draw_pending := some (false, by_color) }

def Board.decline_draw (self : Board) : Board :=
  { self with draw_pending := none }

def Board.resign (self : Board) (by_color : Color) : Board :=
  { self with game_outcome := some (.Decisive by_color.the_other .Resignation) }

/-! ## lib.rs : Default board and FEN import -/

/-- One rank of the board-literal macro (`row!`), using the same piece
letters as `Piece::parse`; `-` is an empty cell. -/
def Grid.ofRows (rows : List String) : Grid :=
  ⟨rows.map fun s => s.data.map Piece.parse⟩

def Board.default : Board :=
  { grid_history := [Grid.ofRows
      ["RNBQKBNR", "PPPPPPPP", "--------", "--------",
       "--------", "--------", "pppppppp", "rnbqkbnr"]]
    last_move := none
    stale_plies := 0
    white_castle := (true, true)
    black_castle := (true, true)
    move_color := .White
    game_outcome := none
    draw_pending := none }

inductive ParsingState where
  | Position | ColorToMove | Useless | Castling | StalePlies
  deriving DecidableEq, Repr

def ParsingState.next : ParsingState → Option ParsingState
  | .Position => some .ColorToMove
  | .ColorToMove => some .Castling
  | .Castling => some .Useless
  | .Useless => some .StalePlies
  | .StalePlies => none

def charDigit (c : Char) : Option Nat :=
  if c.isDigit then some (c.toNat - 48) else none

structure FenState where
  state : ParsingState
  coords : List Coordinate
  grid : Grid
  white_castle : Bool × Bool
  black_castle : Bool × Bool
  move_color : Color
  last_buf : List Char
  deriving Repr

/-- The character loop of `Board::from_fen`; `none` models the
`coord_iter.next().unwrap()` panic. -/
def fenLoop (st : FenState) : List Char → Option FenState
  | [] => some st
  | c :: rest =>
    if c = ' ' then
      match st.state.next with
      | some nxt => fenLoop { st with state := nxt } rest
      | none => some st
    else
      match st.state with
      | .Position =>
        match (charDigit c).bind fun skip =>
            if 0 < skip ∧ skip < 9 then some skip else none with
        | some skip => fenLoop { st with coords := st.coords.drop skip } rest
        | none =>
          match Piece.parse c with
          | some piece =>
            match st.coords with
            | coord :: coords' =>
              fenLoop { st with grid := st.grid.set coord (some piece),
                                coords := coords' } rest
            | [] => none
          | none => fenLoop st rest
      | .ColorToMove =>
        fenLoop { st with move_color := if c = 'b' then .Black else .White } rest
      | .Castling =>
        -- Rust tuple field `.1` is Lean `.2`, `.0` is Lean `.1`.
        let st :=
          if c = 'K' then { st with white_castle := (st.white_castle.1, true) }
          else if c = 'k' then { st with black_castle := (st.black_castle.1, true) }
          else if c = 'Q' then { st with white_castle := (true, st.white_castle.2) }
          else if c = 'q' then { st with black_castle := (true, st.black_castle.2) }
          else st
        fenLoop st rest
      | .StalePlies =>
        fenLoop { st with last_buf := st.last_buf ++ [c] } rest
      | .Useless => fenLoop st rest

/-- `u8::from_str` on the collected stale-ply token; `none` models the
`.unwrap()` panic on non-numeric / out-of-range input. -/
def parseU8 (cs : List Char) : Option Nat :=
  if cs.isEmpty then none
  else if cs.all Char.isDigit then
    let v := cs.foldl (fun acc c => acc * 10 + (c.toNat - 48)) 0
    if v ≤ 255 then some v else none
  else none

def Board.from_fen (raw : String) : Option Board := do
  let st ← fenLoop
    { state := .Position
      coords := Coordinate.allDesc
      grid := Grid.default
      white_castle := (false, false)
      black_castle := (false, false)
      move_color := .White
      last_buf := [] } raw.data
  let stale_plies ← parseU8 st.last_buf
  pure { Board.default with
          grid_history := [st.grid]
          white_castle := st.white_castle
          black_castle := st.black_castle
          move_color := st.move_color
          stale_plies }

/-! ## Concrete game scenarios used by the verification -/

/-- Play a list of player moves, requiring each to be accepted (`Ok`). -/
def playSeq (b : Board) : List PlayerMove → Option Board
  | [] => some b
  | m :: ms =>
    match b.play_move m with
    | some (b', .ok _) => playSeq b' ms
    | _ => none

/-- Internal simple move shorthand. -/
def mvI (f1 : File) (r1 : Rank) (f2 : File) (r2 : Rank) : PlayerMove :=
  .Internal (.Simple ⟨f1, r1⟩ ⟨f2, r2⟩)

def isEnPassantMove : Move → Bool
  | .EnPassant _ _ => true
  | _ => false

/-- 1. e4 a6 2. e5 d5 — the last ply is an immediately preceding two-square
pawn advance (d7→d5) landing adjacent to the white e5 pawn. -/
def enPassantSetupSeq : List PlayerMove :=
  [mvI .E .Second .E .Fourth, mvI .A .Seventh .A .Sixth,
   mvI .E .Fourth .E .Fifth, mvI .D .Seventh .D .Fifth]

/-- 1. e3 Nf6 2. Be2 Nh5 3. Nf3 Ng3 4. a3 Nxh1 — Black's knight captures the
white h1 rook; White's king-side squares f1/g1 are empty and unattacked. -/
def rookCaptureSeq : List PlayerMove :=
  [mvI .E .Second .E .Third, mvI .G .Eighth .F .Sixth,
   mvI .F .First .E .Second, mvI .F .Sixth .H .Fifth,
   mvI .G .First .F .Third, mvI .H .Fifth .G .Third,
   mvI .A .Second .A .Third, mvI .G .Third .H .First]

/-- Kings on a1/a8, rooks on b1/b8, no castling flags: a minimal position
for repetition shuffling. -/
def repGrid : Grid := Grid.ofRows
  ["KR------", "--------", "--------", "--------",
   "--------", "--------", "--------", "kr------"]

/-- `repGrid` with the black rook out on c8 (mid-shuttle position). -/
def rookOutGrid : Grid := Grid.ofRows
  ["KR------", "--------", "--------", "--------",
   "--------", "--------", "--------", "k-r-----"]

/-- Board whose history already holds two occurrences of `repGrid`; Black's
Rc8-b8 recreates it a third time. -/
def repPre3 : Board :=
  { grid_history := [repGrid, rookOutGrid, repGrid, rookOutGrid],
    last_move := none, stale_plies := 0,
    white_castle := (false, false), black_castle := (false, false),
    move_color := .Black, game_outcome := none, draw_pending := none }

/-- The state `play_move` produces from `repPre3` on Black's Rc8-b8: the
third occurrence of `repGrid`, with a pending repetition-flagged offer. -/
def repPost3 : Board :=
  { grid_history := [repGrid, rookOutGrid, repGrid, rookOutGrid, repGrid],
    last_move := none, stale_plies := 0,
    white_castle := (false, false), black_castle := (false, false),
    move_color := .White, game_outcome := none,
    draw_pending := some (true, .Black) }

/-- Board whose history already holds four occurrences of `repGrid`; Black's
Rc8-b8 recreates it a fifth time. -/
def repPre5 : Board :=
  { grid_history := [repGrid, rookOutGrid, repGrid, rookOutGrid,
      repGrid, rookOutGrid, repGrid, rookOutGrid],
    last_move := none, stale_plies := 0,
    white_castle := (false, false), black_castle := (false, false),
    move_color := .Black, game_outcome := none, draw_pending := none }

/-- The state `play_move` produces from `repPre5` on Black's Rc8-b8: the
fifth occurrence of `repGrid`, a forced `FivefoldRepetition` draw. -/
def repPost5 : Board :=
  { grid_history := [repGrid, rookOutGrid, repGrid, rookOutGrid,
      repGrid, rookOutGrid, repGrid, rookOutGrid, repGrid],
    last_move := none, stale_plies := 0,
    white_castle := (false, false), black_castle := (false, false),
    move_color := .Black,
    game_outcome := some (.Draw .FivefoldRepetition), draw_pending := none }

/-- Lone kings on a1 and h8 (a minimal board with no possible checks). -/
def twoKingsBoard : Board :=
  { grid_history := [Grid.ofRows
      ["K-------", "--------", "--------", "--------",
       "--------", "--------", "--------", "-------k"]],
    last_move := none, stale_plies := 0,
    white_castle := (false, false), black_castle := (false, false),
    move_color := .White, game_outcome := none, draw_pending := none }



/-- Whether a Long-form submission matches a legal move (the predicate of the
`find` in `play_move`'s Long branch), stated as a Prop. -/
def LongMatches (color : Color) (fromSq toSq : Coordinate)
    (promotion : Option PieceKind) (legal_move : Move) : Prop :=
  legal_move.resolve_from color = fromSq ∧ legal_move.resolve_to color = toSq ∧
    (match legal_move with
     | .Promotion _ _ piece => promotion = some piece
     | _ => True)

instance (color : Color) (fromSq toSq : Coordinate) (promotion : Option PieceKind)
    (legal_move : Move) :
    Decidable (LongMatches color fromSq toSq promotion legal_move) := by
  unfold LongMatches
  cases legal_move <;> exact inferInstance

/-- A board whose game already has an outcome (used to exercise the
`GameHasOutcome` rejection). -/
def concludedBoard : Board := Board.default.resign .White

/-- A board with an outstanding draw offer (used to exercise the
`DrawPending` rejection). -/
def pendingBoard : Board :=
  { Board.default with draw_pending := some (false, Color.White) }

def startingMoves : List Move := (Board.default.possible_moves .White).getD []

def twoKingsMoves : List Move := (twoKingsBoard.possible_moves .White).getD []

def repLegalAfter3 : List Move :=
  (repPost3.possible_moves repPre3.move_color.the_other).getD []

def repLegalAfter5 : List Move :=
  (repPost5.possible_moves repPre5.move_color.the_other).getD []

/-! ## Supporting lemmas -/

theorem rank_tryFrom_isSome (x : Int) : (Rank.tryFrom x).isSome ↔ 0 ≤ x ∧ x ≤ 7 := by
  unfold Rank.tryFrom
  split_ifs <;> simp <;> omega

theorem file_tryFrom_isSome (x : Int) : (File.tryFrom x).isSome ↔ 0 ≤ x ∧ x ≤ 7 := by
  unfold File.tryFrom
  split_ifs <;> simp <;> omega

theorem rank_tryFrom_toI8 (x : Int) (r : Rank) (h : Rank.tryFrom x = some r) :
    r.toI8 = x := by
  unfold Rank.tryFrom at h
  split_ifs at h <;> simp_all [Rank.toI8] <;> (cases h; rfl)

theorem file_tryFrom_toI8 (x : Int) (f : File) (h : File.tryFrom x = some f) :
    f.toI8 = x := by
  unfold File.tryFrom at h
  split_ifs at h <;> simp_all [File.toI8] <;> (cases h; rfl)

theorem rank_toI8_bounds (r : Rank) : 0 ≤ r.toI8 ∧ r.toI8 ≤ 7 := by
  cases r <;> simp [Rank.toI8]

theorem file_toI8_bounds (f : File) : 0 ≤ f.toI8 ∧ f.toI8 ≤ 7 := by
  cases f <;> simp [File.toI8]

theorem rank_add_isSome (r : Rank) (n : Int) (h1 : -128 ≤ n) (h2 : n ≤ 127) :
    (r.add n).isSome ↔ 0 ≤ r.toI8 + n ∧ r.toI8 + n ≤ 7 := by
  have hb := rank_toI8_bounds r
  rw [Rank.add, rank_tryFrom_isSome]
  unfold i8wrap
  omega

theorem file_add_isSome (f : File) (n : Int) (h1 : -128 ≤ n) (h2 : n ≤ 127) :
    (f.add n).isSome ↔ 0 ≤ f.toI8 + n ∧ f.toI8 + n ≤ 7 := by
  have hb := file_toI8_bounds f
  rw [File.add, file_tryFrom_isSome]
  unfold i8wrap
  omega

theorem rank_add_exact (r r' : Rank) (n : Int) (h1 : -128 ≤ n) (h2 : n ≤ 127)
    (h : r.add n = some r') : r'.toI8 = r.toI8 + n := by
  have hb := rank_toI8_bounds r
  have hb' := rank_toI8_bounds r'
  rw [Rank.add] at h
  have := rank_tryFrom_toI8 _ _ h
  unfold i8wrap at this
  omega

theorem file_add_exact (f f' : File) (n : Int) (h1 : -128 ≤ n) (h2 : n ≤ 127)
    (h : f.add n = some f') : f'.toI8 = f.toI8 + n := by
  have hb := file_toI8_bounds f
  have hb' := file_toI8_bounds f'
  rw [File.add] at h
  have := file_tryFrom_toI8 _ _ h
  unfold i8wrap at this
  omega

theorem checked_add_offset_isSome (c : Coordinate) (o : Offset)
    (hv1 : -128 ≤ o.vertical) (hv2 : o.vertical ≤ 127)
    (hh1 : -128 ≤ o.horizontal) (hh2 : o.horizontal ≤ 127) :
    (c.checked_add_offset o).isSome ↔
      (0 ≤ c.file.toI8 + o.horizontal ∧ c.file.toI8 + o.horizontal ≤ 7 ∧
       0 ≤ c.rank.toI8 + o.vertical ∧ c.rank.toI8 + o.vertical ≤ 7) := by
  have hf := file_add_isSome c.file o.horizontal hh1 hh2
  have hr := rank_add_isSome c.rank o.vertical hv1 hv2
  rcases hF : c.file.add o.horizontal with _ | f' <;>
    rcases hR : c.rank.add o.vertical with _ | r' <;>
    rw [hF] at hf <;> rw [hR] at hr <;>
    simp [Coordinate.checked_add_offset, hF, hR] <;>
    simp at hf hr <;> omega

theorem play_move_ok_cases (b : Board) (pm : PlayerMove) (b' : Board)
    (r : Option GameOutcome) (h : b.play_move pm = some (b', .ok r)) :
    ∃ m, b.game_outcome = none ∧ b.draw_pending = none ∧
      b.selectMove pm = some (some m) ∧
      ∃ b5, (b.applyAccepted pm m).updateOutcome b.move_color = some b5 ∧
        b' = b5.finishTurn b.move_color := by
  unfold Board.play_move at h
  split at h
  · simp at h
  · rename_i hgo
    split at h
    · simp at h
    · rename_i hdp
      split at h
      · simp at h
      · simp at h
      · rename_i m hsel
        cases hup : (b.applyAccepted pm m).updateOutcome b.move_color with
        | none => rw [hup] at h; simp at h
        | some b5 =>
          rw [hup] at h
          simp only [Option.map_some', Option.some.injEq, Prod.mk.injEq] at h
          refine ⟨m, hgo, ?_, hsel, b5, hup, h.1.symm⟩
          cases hdpc : b.draw_pending with
          | none => rfl
          | some x => rw [hdpc] at hdp; simp at hdp



theorem updateOutcome_rep (b4 b5 : Board) (mover : Color) (l4 : List Move)
    (h : b4.updateOutcome mover = some b5)
    (hl : b4.possible_moves b4.move_color.the_other = some l4)
    (hne : l4.isEmpty = false)
    (hst : b4.stale_plies ≠ 100)
    (hmat : b4.is_material_sufficient_for_checkmate = true) :
    b5 = b4.repetitionStep mover
      (b4.grid_history.countP fun position => decide (position = b4.grid)) := by
  unfold Board.updateOutcome at h
  split at h
  · cases h
  · rename_i opp hopp
    rw [hopp] at hl
    injection hl with hl
    subst hl
    split at h
    · rename_i hemp
      rw [hemp] at hne
      simp at hne
    · split at h
      · rename_i hmatb
        rw [hmat] at hmatb
        simp at hmatb
      · exact (Option.some.inj h).symm

theorem handle_castling_move_color (b : Board) (c : Color) (m : Move) :
    (b.handle_castling_rights_update c m).move_color = b.move_color := by
  unfold Board.handle_castling_rights_update
  cases c <;> rfl

theorem handle_castling_game_outcome (b : Board) (c : Color) (m : Move) :
    (b.handle_castling_rights_update c m).game_outcome = b.game_outcome := by
  unfold Board.handle_castling_rights_update
  cases c <;> rfl

theorem handle_castling_draw_pending (b : Board) (c : Color) (m : Move) :
    (b.handle_castling_rights_update c m).draw_pending = b.draw_pending := by
  unfold Board.handle_castling_rights_update
  cases c <;> rfl

theorem applyAccepted_move_color (b : Board) (pm : PlayerMove) (m : Move) :
    (b.applyAccepted pm m).move_color = b.move_color := by
  simp only [Board.applyAccepted, handle_castling_move_color]

theorem applyAccepted_game_outcome (b : Board) (pm : PlayerMove) (m : Move) :
    (b.applyAccepted pm m).game_outcome = b.game_outcome := by
  simp only [Board.applyAccepted, handle_castling_game_outcome]

theorem applyAccepted_draw_pending (b : Board) (pm : PlayerMove) (m : Move) :
    (b.applyAccepted pm m).draw_pending = b.draw_pending := by
  simp only [Board.applyAccepted, handle_castling_draw_pending]

theorem finishTurn_fields (b : Board) (c : Color) :
    (b.finishTurn c).grid_history = b.grid_history ∧
    (b.finishTurn c).last_move = b.last_move ∧
    (b.finishTurn c).stale_plies = b.stale_plies ∧
    (b.finishTurn c).white_castle = b.white_castle ∧
    (b.finishTurn c).black_castle = b.black_castle ∧
    (b.finishTurn c).game_outcome = b.game_outcome ∧
    (b.finishTurn c).draw_pending = b.draw_pending := by
  unfold Board.finishTurn
  split <;> exact ⟨rfl, rfl, rfl, rfl, rfl, rfl, rfl⟩

theorem updateOutcome_fields (b4 b5 : Board) (mover : Color)
    (h : b4.updateOutcome mover = some b5) :
    b5.grid_history = b4.grid_history ∧
    b5.last_move = b4.last_move ∧
    b5.stale_plies = b4.stale_plies ∧
    b5.white_castle = b4.white_castle ∧
    b5.black_castle = b4.black_castle ∧
    b5.move_color = b4.move_color := by
  unfold Board.updateOutcome at h
  split at h
  · cases h
  · split at h
    · split at h
      · cases h
      · split at h <;>
          (rw [← Option.some.inj h]; exact ⟨rfl, rfl, rfl, rfl, rfl, rfl⟩)
    · split at h
      · rw [← Option.some.inj h]; exact ⟨rfl, rfl, rfl, rfl, rfl, rfl⟩
      · split at h
        · rw [← Option.some.inj h]; exact ⟨rfl, rfl, rfl, rfl, rfl, rfl⟩
        · rw [← Option.some.inj h]
          unfold Board.repetitionStep
          split
          · exact ⟨rfl, rfl, rfl, rfl, rfl, rfl⟩
          · split <;> exact ⟨rfl, rfl, rfl, rfl, rfl, rfl⟩

theorem possible_moves_congr (a c : Board) (col : Color)
    (h1 : a.grid_history = c.grid_history) (h2 : a.last_move = c.last_move)
    (h3 : a.white_castle = c.white_castle) (h4 : a.black_castle = c.black_castle) :
    a.possible_moves col = c.possible_moves col := by
  cases a
  cases c
  dsimp only at h1 h2 h3 h4
  subst h1
  subst h2
  subst h3
  subst h4
  rfl

theorem material_congr (a c : Board)
    (h1 : a.grid_history = c.grid_history) :
    a.is_material_sufficient_for_checkmate = c.is_material_sufficient_for_checkmate := by
  cases a
  cases c
  dsimp only at h1
  subst h1
  rfl

theorem grid_congr (a c : Board) (h1 : a.grid_history = c.grid_history) :
    a.grid = c.grid := by
  unfold Board.grid
  rw [h1]

theorem play_move_rep_core (b : Board) (pm : PlayerMove) (b' : Board)
    (r : Option GameOutcome) (l : List Move)
    (h : b.play_move pm = some (b', .ok r))
    (hl : b'.possible_moves b.move_color.the_other = some l)
    (hne : l ≠ [])
    (hst : b'.stale_plies ≠ 100)
    (hmat : b'.is_material_sufficient_for_checkmate = true) :
    ∃ b4 : Board, b4.game_outcome = none ∧ b4.draw_pending = none ∧
      b' = (b4.repetitionStep b.move_color
        (b4.grid_history.countP fun position => decide (position = b4.grid))).finishTurn
          b.move_color ∧
      (b4.grid_history.countP fun position => decide (position = b4.grid)) =
        (b'.grid_history.countP fun position => decide (position = b'.grid)) := by
  obtain ⟨m, hgo, hdp, hsel, b5, hup, hb'⟩ := play_move_ok_cases b pm b' r h
  set b4 := b.applyAccepted pm m with hb4
  obtain ⟨f1, f2, f3, f4, f5, f6⟩ := updateOutcome_fields b4 b5 b.move_color hup
  obtain ⟨g1, g2, g3, g4, g5, g6, g7⟩ := finishTurn_fields b5 b.move_color
  have e1 : b'.grid_history = b4.grid_history := by rw [hb', g1, f1]
  have e2 : b'.last_move = b4.last_move := by rw [hb', g2, f2]
  have e3 : b'.stale_plies = b4.stale_plies := by rw [hb', g3, f3]
  have e4 : b'.white_castle = b4.white_castle := by rw [hb', g4, f4]
  have e5 : b'.black_castle = b4.black_castle := by rw [hb', g5, f5]
  have hmc : b4.move_color = b.move_color := applyAccepted_move_color b pm m
  have hl4 : b4.possible_moves b4.move_color.the_other = some l := by
    rw [hmc, ← possible_moves_congr b' b4 b.move_color.the_other e1 e2 e4 e5]
    exact hl
  have hne4 : l.isEmpty = false := by
    cases l with
    | nil => exact absurd rfl hne
    | cons a as => rfl
  have hst4 : b4.stale_plies ≠ 100 := by rw [← e3]; exact hst
  have hmat4 : b4.is_material_sufficient_for_checkmate = true := by
    rw [← material_congr b' b4 e1]; exact hmat
  have hrep := updateOutcome_rep b4 b5 b.move_color l hup hl4 hne4 hst4 hmat4
  have ecnt : (b4.grid_history.countP fun position => decide (position = b4.grid)) =
      (b'.grid_history.countP fun position => decide (position = b'.grid)) := by
    rw [e1, grid_congr b' b4 e1]
  have hgo4 : b4.game_outcome = none := by
    rw [hb4, applyAccepted_game_outcome]; exact hgo
  have hdp4 : b4.draw_pending = none := by
    rw [hb4, applyAccepted_draw_pending]; exact hdp
  refine ⟨b4, hgo4, hdp4, ?_, ecnt⟩
  rw [hb', hrep]

/-- C4: when an accepted move produces a grid equal to exactly 3 entries of
`grid_history` (and the opponent still has legal moves, the 50-move counter
is not at 100, and material is sufficient), `play_move` sets `draw_pending`
to a repetition-flagged offer from the mover and leaves `game_outcome`
`none`; the opponent's `propose_draw` then yields
`Draw ThreefoldRepetition`; `decline_draw` clears the offer and play
continues; on the 5th occurrence `play_move` sets `Draw FivefoldRepetition`
directly with no offer. -/
theorem c4_repetition_draw_protocol :
    (∀ (b : Board) (pm : PlayerMove) (b' : Board) (r : Option GameOutcome) (l : List Move),
      b.play_move pm = some (b', .ok r) →
      b'.possible_moves b.move_color.the_other = some l → l ≠ [] →
      b'.stale_plies ≠ 100 →
      b'.is_material_sufficient_for_checkmate = true →
      (b'.grid_history.countP fun position => decide (position = b'.grid)) = 3 →
      b'.draw_pending = some (true, b.move_color) ∧ b'.game_outcome = none) ∧
    (∀ (b : Board) (c : Color), b.draw_pending = some (true, c) →
      (b.propose_draw c.the_other).game_outcome = some (.Draw .ThreefoldRepetition)) ∧
    (∀ b : Board, b.decline_draw.draw_pending = none ∧
      b.decline_draw.game_outcome = b.game_outcome) ∧
    (∀ (b : Board) (pm : PlayerMove) (b' : Board) (r : Option GameOutcome) (l : List Move),
      b.play_move pm = some (b', .ok r) →
      b'.possible_moves b.move_color.the_other = some l → l ≠ [] →
      b'.stale_plies ≠ 100 →
      b'.is_material_sufficient_for_checkmate = true →
      (b'.grid_history.countP fun position => decide (position = b'.grid)) = 5 →
      b'.game_outcome = some (.Draw .FivefoldRepetition) ∧ b'.draw_pending = none) := by
  refine ⟨?_, ?_, ?_, ?_⟩
  · intro b pm b' r l h hl hne hst hmat hc
    obtain ⟨b4, hgo4, hdp4, hb', ecnt⟩ := play_move_rep_core b pm b' r l h hl hne hst hmat
    rw [hc] at ecnt
    rw [ecnt] at hb'
    constructor
    · rw [hb']
      simp [Board.repetitionStep, Board.finishTurn, hgo4]
    · rw [hb']
      simp [Board.repetitionStep, Board.finishTurn, hgo4]
  · intro b c hdp
    simp [Board.propose_draw, hdp]
  · intro b
    exact ⟨rfl, rfl⟩
  · intro b pm b' r l h hl hne hst hmat hc
    obtain ⟨b4, hgo4, hdp4, hb', ecnt⟩ := play_move_rep_core b pm b' r l h hl hne hst hmat
    rw [hc] at ecnt
    rw [ecnt] at hb'
    constructor
    · rw [hb']
      simp [Board.repetitionStep, Board.finishTurn]
    · rw [hb']
      simp [Board.repetitionStep, Board.finishTurn, hdp4]



theorem selectMove_internal_none (b : Board) (m : Move) (pms : List Move)
    (hpm : b.possible_moves b.move_color = some pms) (hmem : m ∉ pms) :
    b.selectMove (.Internal m) = some none := by
  have hany : (pms.any fun legal_move => decide (legal_move = m)) = false := by
    rw [Bool.eq_false_iff]
    intro hc
    rcases List.any_eq_true.mp hc with ⟨x, hx, hxe⟩
    rw [decide_eq_true_eq] at hxe
    exact hmem (hxe ▸ hx)
  unfold Board.selectMove
  rw [hpm]
  simp only [Option.map_some']
  rw [hany]
  rfl

theorem selectMove_long_none (b : Board) (fromSq toSq : Coordinate)
    (promotion : Option PieceKind) (pms : List Move)
    (hpm : b.possible_moves b.move_color = some pms)
    (hno : ∀ lm ∈ pms, ¬LongMatches b.move_color fromSq toSq promotion lm) :
    b.selectMove (.Long fromSq toSq promotion) = some none := by
  unfold Board.selectMove
  rw [hpm]
  simp only [Option.map_some', Option.some.injEq]
  rw [List.find?_eq_none]
  intro x hx hcx
  apply hno x hx
  unfold LongMatches
  simp only [Bool.and_eq_true, decide_eq_true_eq] at hcx
  refine ⟨hcx.1.1, hcx.1.2, ?_⟩
  cases x with
  | Promotion ff tf piece =>
    cases promotion with
    | none => simp at hcx
    | some q =>
      simp only [decide_eq_true_eq] at hcx
      rw [hcx.2]
  | Simple a c => trivial
  | EnPassant a c => trivial
  | Castling s => trivial

/-! ## Claim theorems -/

/-- C1: REFUTED on the code (code bug).  After 1. e4 a6 2. e5 d5 — an
opponent two-square pawn advance landing with file distance 1 from the white
e5 pawn standing on its en-passant rank — the en-passant capture is
nevertheless rejected as `IllegalMove` (submitted both in Internal and in
Long form), `last_move` is still `none` (`play_move` never assigns it), and
no `EnPassant` move at all is generated by `possible_moves`. -/
theorem c1_en_passant_never_accepted :
    ((playSeq Board.default enPassantSetupSeq).bind fun b =>
      (b.play_move (.Internal (.EnPassant .E .D))).map Prod.snd) =
        some (.error .IllegalMove) ∧
    ((playSeq Board.default enPassantSetupSeq).bind fun b =>
      (b.play_move (.Long ⟨.E, .Fifth⟩ ⟨.D, .Sixth⟩ none)).map Prod.snd) =
        some (.error .IllegalMove) ∧
    ((playSeq Board.default enPassantSetupSeq).map fun b => b.last_move) =
        some none ∧
    ((playSeq Board.default enPassantSetupSeq).map fun b =>
      (b.possible_moves .White).map fun l => l.any isEnPassantMove) =
        some (some false) :=
  ⟨rfl, rfl, rfl, rfl⟩

/-- C2: REFUTED on the code (code bug).  On the default board the advancing
pawn move e2e4 submitted as `PlayerMove::Internal` leaves `stale_plies = 1`
(the Internal branch negates the advancing flag returned by `Grid::move`),
while the identical move submitted in Long form correctly resets it to 0;
`Grid::move` itself reports the move as advancing. -/
theorem c2_stale_plies_internal_inverted :
    (Board.default.play_move (.Internal (.Simple ⟨.E, .Second⟩ ⟨.E, .Fourth⟩))).map
      (fun res => res.1.stale_plies) = some 1 ∧
    (Board.default.play_move (.Long ⟨.E, .Second⟩ ⟨.E, .Fourth⟩ none)).map
      (fun res => res.1.stale_plies) = some 0 ∧
    (Board.default.grid.move (.Simple ⟨.E, .Second⟩ ⟨.E, .Fourth⟩) .White).2 = true :=
  ⟨rfl, rfl, rfl⟩

/-- C3: REFUTED on the code (code bug).  After 1. e3 Nf6 2. Be2 Nh5 3. Nf3
Ng3 4. a3 Nxh1 the white h1 rook has been captured (a black knight stands on
h1) and White's castling flags are still `(true, true)`; kingside castling
is still generated by `possible_moves` and accepted by `play_move`, which
even relocates the capturing black knight from h1 to f1. -/
theorem c3_castling_survives_rook_capture :
    ((playSeq Board.default rookCaptureSeq).map fun b =>
      (b.grid.get ⟨.H, .First⟩, b.white_castle)) =
        some (some { kind := .Knight, color := .Black }, (true, true)) ∧
    ((playSeq Board.default rookCaptureSeq).map fun b =>
      (b.possible_moves .White).map fun l => l.contains (.Castling .King)) =
        some (some true) ∧
    ((playSeq Board.default rookCaptureSeq).bind fun b =>
      (b.play_move (.Internal (.Castling .King))).map fun res =>
        (res.2, res.1.grid.get ⟨.F, .First⟩)) =
        some (.ok none, some { kind := .Knight, color := .Black }) :=
  ⟨rfl, rfl, rfl⟩

/-- C4 witness: the rook-shuttle scenario.  The 8th ply produces the third
occurrence of `repGrid` and is accepted; `c4_repetition_draw_protocol`
applied at it gives the pending repetition offer with no outcome; the
opponent's `propose_draw` yields `Draw ThreefoldRepetition`; `decline_draw`
clears the offer; after one decline and two more shuttle cycles the 16th
ply (fifth occurrence) ends in `Draw FivefoldRepetition` with no offer. -/
theorem c4_repetition_draw_protocol_witness :
    (repPre3.play_move (mvI .C .Eighth .B .Eighth) = some (repPost3, .ok none)) ∧
    (repPost3.draw_pending = some (true, repPre3.move_color) ∧
      repPost3.game_outcome = none) ∧
    ((repPost3.propose_draw Color.Black.the_other).game_outcome =
      some (.Draw .ThreefoldRepetition)) ∧
    (repPost3.decline_draw.draw_pending = none ∧
      repPost3.decline_draw.game_outcome = repPost3.game_outcome) ∧
    (repPre5.play_move (mvI .C .Eighth .B .Eighth) =
      some (repPost5, .ok (some (.Draw .FivefoldRepetition)))) ∧
    (repPost5.game_outcome = some (.Draw .FivefoldRepetition) ∧
      repPost5.draw_pending = none) :=
  ⟨rfl,
   c4_repetition_draw_protocol.1 repPre3 (mvI .C .Eighth .B .Eighth) repPost3
     none repLegalAfter3 rfl rfl (by decide) (by decide) rfl rfl,
   c4_repetition_draw_protocol.2.1 repPost3 .Black rfl,
   c4_repetition_draw_protocol.2.2.1 repPost3,
   rfl,
   c4_repetition_draw_protocol.2.2.2 repPre5 (mvI .C .Eighth .B .Eighth)
     repPost5 (some (.Draw .FivefoldRepetition)) repLegalAfter5 rfl rfl
     (by decide) (by decide) rfl rfl⟩

/-- C5: REFUTED on the code (code bug).  `from_fen` on a position whose
castling token is exactly `K` sets White's flags to `(false, true)` and
`possible_moves` then generates QUEENSIDE castling and not kingside (the
`from_fen` flag assignment is inverted relative to the move generator and
to `handle_castling_rights_update`); dually a `Q`-only token makes kingside
castling generated. -/
theorem c5_fen_castling_flags_swapped :
    (Board.from_fen "k7/8/8/8/8/8/8/4K2R w K - 0").map (fun b =>
      (b.white_castle, (b.possible_moves .White).map fun l =>
        (l.contains (.Castling .King), l.contains (.Castling .Queen)))) =
      some ((false, true), some (false, true)) ∧
    (Board.from_fen "k7/8/8/8/8/8/8/R3K3 w Q - 0").map (fun b =>
      (b.white_castle, (b.possible_moves .White).map fun l =>
        (l.contains (.Castling .King), l.contains (.Castling .Queen)))) =
      some ((true, false), some (true, false)) :=
  ⟨rfl, rfl⟩

/-- C6: `play_move` returns `GameHasOutcome` whenever `game_outcome` is set;
otherwise `DrawPending` whenever `draw_pending` is set; otherwise
`IllegalMove` when the submitted Internal or Long move matches no move of
the current legal-move set — and in each error case the returned board is
the unchanged input board. -/
theorem c6_play_move_error_cases :
    (∀ (b : Board) (pm : PlayerMove) (o : GameOutcome),
      b.game_outcome = some o →
      b.play_move pm = some (b, .error (.GameHasOutcome o))) ∧
    (∀ (b : Board) (pm : PlayerMove),
      b.game_outcome = none → b.draw_pending.isSome →
      b.play_move pm = some (b, .error .DrawPending)) ∧
    (∀ (b : Board) (m : Move) (pms : List Move),
      b.game_outcome = none → b.draw_pending = none →
      b.possible_moves b.move_color = some pms →
      m ∉ pms →
      b.play_move (.Internal m) = some (b, .error .IllegalMove)) ∧
    (∀ (b : Board) (fromSq toSq : Coordinate) (promotion : Option PieceKind)
        (pms : List Move),
      b.game_outcome = none → b.draw_pending = none →
      b.possible_moves b.move_color = some pms →
      (∀ lm ∈ pms, ¬LongMatches b.move_color fromSq toSq promotion lm) →
      b.play_move (.Long fromSq toSq promotion) = some (b, .error .IllegalMove)) := by
  refine ⟨?_, ?_, ?_, ?_⟩
  · intro b pm o hgo
    unfold Board.play_move
    rw [hgo]
  · intro b pm hgo hdp
    unfold Board.play_move
    rw [hgo]
    simp [hdp]
  · intro b m pms hgo hdp hpm hmem
    unfold Board.play_move
    rw [hgo, selectMove_internal_none b m pms hpm hmem]
    simp [hdp]
  · intro b fromSq toSq promotion pms hgo hdp hpm hno
    unfold Board.play_move
    rw [hgo, selectMove_long_none b fromSq toSq promotion pms hpm hno]
    simp [hdp]

/-- C6 witness: a concluded board rejects e2e4 with `GameHasOutcome`; a board
with a pending offer rejects it with `DrawPending`; the default board
rejects the unmatchable a1a4 (in both Internal and Long form) with
`IllegalMove`. -/
theorem c6_play_move_error_cases_witness :
    (concludedBoard.play_move (mvI .E .Second .E .Fourth) =
      some (concludedBoard, .error (.GameHasOutcome (.Decisive .Black .Resignation)))) ∧
    (pendingBoard.play_move (mvI .E .Second .E .Fourth) =
      some (pendingBoard, .error .DrawPending)) ∧
    (Board.default.play_move (.Internal (.Simple ⟨.A, .First⟩ ⟨.A, .Fourth⟩)) =
      some (Board.default, .error .IllegalMove)) ∧
    (Board.default.play_move (.Long ⟨.A, .First⟩ ⟨.A, .Fourth⟩ none) =
      some (Board.default, .error .IllegalMove)) :=
  ⟨c6_play_move_error_cases.1 concludedBoard (mvI .E .Second .E .Fourth)
     (.Decisive .Black .Resignation) rfl,
   c6_play_move_error_cases.2.1 pendingBoard (mvI .E .Second .E .Fourth) rfl rfl,
   c6_play_move_error_cases.2.2.1 Board.default
     (.Simple ⟨.A, .First⟩ ⟨.A, .Fourth⟩) startingMoves rfl rfl rfl (by decide),
   c6_play_move_error_cases.2.2.2 Board.default ⟨.A, .First⟩ ⟨.A, .Fourth⟩
     none startingMoves rfl rfl rfl (by decide)⟩

/-- C7: every move returned by `possible_moves color`, applied to a copy of
the current grid, leaves the square then occupied by that color's king (its
original square, re-anchored to the move's destination if the move moved the
king) not attacked by the opposing color. -/
theorem c7_legal_moves_leave_king_safe (b : Board) (color : Color)
    (kc : Coordinate) (moves : List Move) (m : Move)
    (hfind : b.find_piece { kind := .King, color } = some kc)
    (hpm : b.possible_moves color = some moves)
    (hmem : m ∈ moves) :
    ((b.grid.move m color).1.attacked color.the_other
      (if m.resolve_from color = kc then m.resolve_to color else kc)) = false := by
  unfold Board.possible_moves at hpm
  rw [hfind] at hpm
  simp only [Option.map_some', Option.some.injEq] at hpm
  subst hpm
  have h2 := (List.mem_filter.mp hmem).2
  rw [Bool.not_eq_true'] at h2
  simpa [Board.is_under_attack] using h2

/-- C7 witness: on the two-kings board the white king stands on a1, the move
a1a2 is among the generated legal moves, and applying it leaves a2 (the
king's new square) unattacked by Black. -/
theorem c7_legal_moves_leave_king_safe_witness :
    (twoKingsBoard.find_piece { kind := .King, color := .White } =
      some ⟨.A, .First⟩) ∧
    (twoKingsBoard.possible_moves .White = some twoKingsMoves) ∧
    (Move.Simple ⟨.A, .First⟩ ⟨.A, .Second⟩ ∈ twoKingsMoves) ∧
    ((twoKingsBoard.grid.move (.Simple ⟨.A, .First⟩ ⟨.A, .Second⟩) .White).1.attacked
      Color.White.the_other
      (if (Move.Simple ⟨.A, .First⟩ ⟨.A, .Second⟩).resolve_from .White = ⟨.A, .First⟩
       then (Move.Simple ⟨.A, .First⟩ ⟨.A, .Second⟩).resolve_to .White
       else ⟨.A, .First⟩)) = false :=
  ⟨rfl, rfl, by decide,
   c7_legal_moves_leave_king_safe twoKingsBoard .White ⟨.A, .First⟩
     twoKingsMoves (.Simple ⟨.A, .First⟩ ⟨.A, .Second⟩) rfl rfl (by decide)⟩

/-- C8: on the default (standard starting) board, `possible_moves White`
returns exactly 20 moves. -/
theorem c8_initial_position_twenty_moves :
    (Board.default.possible_moves .White).map List.length = some 20 := rfl

/-- C9: for every `File`, `Rank` and signed-8-bit offset `n`, `f + n` and
`r + n` are `some` exactly when the exact ordinal result lies in 0–7 (and
the produced ordinal is the exact sum — no wraparound); likewise
`checked_add_offset` is `some` exactly when both components stay in 0–7. -/
theorem c9_bounded_offset_arithmetic :
    (∀ (f : File) (n : Int), -128 ≤ n → n ≤ 127 →
      ((f.add n).isSome ↔ 0 ≤ f.toI8 + n ∧ f.toI8 + n ≤ 7)) ∧
    (∀ (r : Rank) (n : Int), -128 ≤ n → n ≤ 127 →
      ((r.add n).isSome ↔ 0 ≤ r.toI8 + n ∧ r.toI8 + n ≤ 7)) ∧
    (∀ (f f' : File) (n : Int), -128 ≤ n → n ≤ 127 → f.add n = some f' →
      f'.toI8 = f.toI8 + n) ∧
    (∀ (r r' : Rank) (n : Int), -128 ≤ n → n ≤ 127 → r.add n = some r' →
      r'.toI8 = r.toI8 + n) ∧
    (∀ (c : Coordinate) (o : Offset), -128 ≤ o.vertical → o.vertical ≤ 127 →
      -128 ≤ o.horizontal → o.horizontal ≤ 127 →
      ((c.checked_add_offset o).isSome ↔
        (0 ≤ c.file.toI8 + o.horizontal ∧ c.file.toI8 + o.horizontal ≤ 7 ∧
         0 ≤ c.rank.toI8 + o.vertical ∧ c.rank.toI8 + o.vertical ≤ 7))) :=
  ⟨file_add_isSome, rank_add_isSome,
   fun f f' n h1 h2 h => file_add_exact f f' n h1 h2 h,
   fun r r' n h1 h2 h => rank_add_exact r r' n h1 h2 h,
   checked_add_offset_isSome⟩

/-- C9 witness: concrete instances — `A + 3` is in range and equals `D`;
`Seventh + 5` is out of range; `e2 + (vertical 2, horizontal 0)` is in
range. -/
theorem c9_bounded_offset_arithmetic_witness :
    ((-128 : Int) ≤ 3 ∧ (3 : Int) ≤ 127) ∧
    ((File.add .A 3).isSome ↔ 0 ≤ File.toI8 .A + 3 ∧ File.toI8 .A + 3 ≤ 7) ∧
    ((Rank.add .Seventh 5).isSome ↔
      0 ≤ Rank.toI8 .Seventh + 5 ∧ Rank.toI8 .Seventh + 5 ≤ 7) ∧
    (File.toI8 .D = File.toI8 .A + 3) ∧
    ((Coordinate.checked_add_offset ⟨.E, .Second⟩ ⟨2, 0⟩).isSome ↔
      (0 ≤ File.toI8 .E + 0 ∧ File.toI8 .E + 0 ≤ 7 ∧
       0 ≤ Rank.toI8 .Second + 2 ∧ Rank.toI8 .Second + 2 ≤ 7)) :=
  ⟨⟨by decide, by decide⟩,
   c9_bounded_offset_arithmetic.1 .A 3 (by decide) (by decide),
   c9_bounded_offset_arithmetic.2.1 .Seventh 5 (by decide) (by decide),
   c9_bounded_offset_arithmetic.2.2.1 .A .D 3 (by decide) (by decide) rfl,
   c9_bounded_offset_arithmetic.2.2.2.2 ⟨.E, .Second⟩ ⟨2, 0⟩
     (by decide) (by decide) (by decide) (by decide)⟩

/-- C10: `resign by` unconditionally sets `game_outcome` to
`Decisive (won := by.the_other) Resignation` for every board state —
including boards whose `game_outcome` is already set, which is overwritten. -/
theorem c10_resign_always_sets_outcome (b : Board) (c : Color) :
    (b.resign c).game_outcome = some (.Decisive c.the_other .Resignation) :=
  rfl

/-- C10 witness: resigning on an already-concluded board (White already
resigned) overwrites the recorded outcome. -/
theorem c10_resign_always_sets_outcome_witness :
    ((Board.default.resign Color.White).resign Color.Black).game_outcome =
      some (.Decisive Color.Black.the_other .Resignation) :=
  c10_resign_always_sets_outcome (Board.default.resign Color.White) Color.Black

end Ress
